import Mathlib

/-!
Shallow embedding of the authentication subsystem of the e-commerce
repository (services/user-auth-service/main.go) and verification of the
specification's claims about it.

Modelling conventions:
* MongoDB is modelled as an in-memory list of users plus a fresh-id
  counter; the unique index on `email` created by `createIndexes` makes
  `InsertOne` fail exactly when the email is already present.
* bcrypt is modelled as an ideal salted hash: the hash object records the
  cost, the salt and the hashed plaintext, and comparison succeeds exactly
  for the original plaintext.  One-wayness is not needed by any claim.
* JWTs are modelled structurally.  A token string either fails to parse
  (`malformed`) or denotes a header algorithm, a claim map and an optional
  signature.  HMAC is ideal: a signature value records the algorithm, the
  key and the signed payload, and verification recomputes and compares.
* `jwt.Parse` of golang-jwt/v5 with a key function returning the byte
  secret is embedded in `jwtParse`: the header algorithm selects the
  verification method (no `WithValidMethods` restriction appears in the
  source); the `none` method refuses a byte-slice key, RSA methods refuse
  a byte-slice key, HMAC methods recompute the MAC; afterwards the default
  validator checks `exp` strictly (valid iff now < exp) when present.
* Go panics (failed type assertions, out-of-range string slicing) are an
  explicit result constructor, since several claims are about their
  absence.
-/

namespace ECommerceAuth

/-- A JSON value as it can occur in a JWT claim map. -/
inductive JsonVal where
  | str (s : String)
  | num (n : Int)
  | jbool (b : Bool)
  | null
deriving DecidableEq, Repr

/-- `jwt.MapClaims`: a JSON object, modelled as an association list. -/
abbrev Claims := List (String × JsonVal)

/-- Claim lookup, `claims[k]` on the Go map. -/
def lookupClaim (cs : Claims) (k : String) : Option JsonVal :=
  (cs.find? (fun p => p.1 == k)).map Prod.snd

/-- `claims[k].(string)` succeeds: the claim is present and is a string. -/
def lookupStr (cs : Claims) (k : String) : Option String :=
  match lookupClaim cs k with
  | some (.str s) => some s
  | _ => none

/-- Signing algorithms a presented token's header can declare. -/
inductive Alg where
  | HS256
  | HS384
  | HS512
  | RS256
  | noneAlg
deriving DecidableEq, Repr

/-- An ideal MAC value: records the algorithm, key and payload it was
computed over; two MACs are equal iff all three coincide. -/
inductive Sig where
  | hmac (alg : Alg) (secret : String) (payload : Claims)
deriving DecidableEq, Repr

/-- A structurally well-formed JWT: header algorithm, claim map, and the
signature part (absent for an unsigned token). -/
structure SignedToken where
  alg : Alg
  claims : Claims
  sig : Option Sig
deriving DecidableEq, Repr

/-- A token string as presented to the verifier: it either fails JWT
structural parsing or denotes a well-formed token. -/
inductive JWTInput where
  | malformed
  | wellFormed (t : SignedToken)
deriving DecidableEq, Repr

/-- Verification errors of `jwt.Parse` (collapsed to the classes the
service distinguishes; every one makes `err != nil` in Go). -/
inductive VerifyErr where
  | malformedToken
  | badSignature
  | expired
  | invalidClaim
deriving DecidableEq, Repr

/-- Signature verification performed by `jwt.Parse` when the key function
returns the byte-slice secret.  The method is selected by the token
header's `alg` (the source imposes no `WithValidMethods` restriction):
HMAC methods recompute the MAC with the given secret; the `none` method
refuses any key other than the library's unsafe marker, so a byte-slice
key fails; RSA methods refuse a byte-slice key. -/
def verifySignature (secret : String) (t : SignedToken) : Bool :=
  match t.alg with
  | .HS256 | .HS384 | .HS512 => t.sig == some (.hmac t.alg secret t.claims)
  | .noneAlg => false
  | .RS256 => false

/-- Default claim validation of golang-jwt/v5: when an `exp` claim is
present it must be a number and the current time must be strictly before
it; a missing `exp` is not an error by default. -/
def validateExp (now : Int) (cs : Claims) : Except VerifyErr Unit :=
  match lookupClaim cs "exp" with
  | some (.num e) => if now < e then .ok () else .error .expired
  | some _ => .error .invalidClaim
  | none => .ok ()

/-- `jwt.Parse(tokenString, keyFunc)` with `keyFunc` returning the service
secret, as called at main.go:229 and main.go:334: structural parse, then
signature verification, then default claim validation. -/
def jwtParse (secret : String) (now : Int) (input : JWTInput) :
    Except VerifyErr SignedToken :=
  match input with
  | .malformed => .error .malformedToken
  | .wellFormed t =>
    if verifySignature secret t then
      match validateExp now t.claims with
      | .ok _ => .ok t
      | .error e => .error e
    else
      .error .badSignature

/-- `TokenResponse` (main.go:34), with the serialized field names; the two
tokens are kept structurally rather than as encoded strings. -/
structure TokenResponse where
  access_token : SignedToken
  refresh_token : SignedToken
  expires_in : Int
deriving DecidableEq, Repr

/-- `generateTokens` (main.go:298): issues an HS256 access token expiring
in 15 minutes and an HS256 refresh token expiring in 7 days, both carrying
sub, email and role, signed with the process secret.  The several
`time.Now()` calls of the source are modelled by the single instant
`now`. -/
def generateTokens (secret : String) (now : Int) (userID email role : String) :
    TokenResponse :=
  let accessClaims : Claims :=
    [("sub", .str userID), ("email", .str email), ("role", .str role),
     ("exp", .num (now + 15 * 60)), ("iat", .num now)]
  let refreshClaims : Claims :=
    [("sub", .str userID), ("email", .str email), ("role", .str role),
     ("exp", .num (now + 7 * 24 * 60 * 60)), ("iat", .num now)]
  { access_token :=
      { alg := .HS256, claims := accessClaims,
        sig := some (.hmac .HS256 secret accessClaims) },
    refresh_token :=
      { alg := .HS256, claims := refreshClaims,
        sig := some (.hmac .HS256 secret refreshClaims) },
    expires_in := now + 15 * 60 }

/-- An ideal bcrypt hash: records cost, salt and the hashed plaintext. -/
structure BHash where
  cost : Nat
  salt : Nat
  plaintext : String
deriving DecidableEq, Repr

/-- `bcrypt.GenerateFromPassword`, ideal functionality (the salt is drawn
by the caller's environment). -/
def bcryptGenerateFromPassword (cost salt : Nat) (pw : String) : BHash :=
  { cost := cost, salt := salt, plaintext := pw }

/-- `bcrypt.CompareHashAndPassword == nil`: succeeds exactly for the
plaintext the hash was produced from. -/
def bcryptCompareHashAndPassword (h : BHash) (pw : String) : Bool :=
  h.plaintext == pw

/-- `User` (main.go:19).  `password` carries the bcrypt hash; its json tag
in the source is `-`. -/
structure User where
  id : String
  email : String
  password : BHash
  role : String
  name : String
  active : Bool
  created_at : Int
deriving DecidableEq, Repr

/-- The `users` collection together with the store's fresh-id source. -/
structure UserStore where
  users : List User
  nextId : Nat
deriving DecidableEq, Repr

/-- `FindOne({email: e})` (main.go:195). -/
def findByEmail (s : UserStore) (email : String) : Option User :=
  s.users.find? (fun u => u.email == email)

/-- `FindOne({_id: id})` (main.go:262). -/
def findById (s : UserStore) (id : String) : Option User :=
  s.users.find? (fun u => u.id == id)

/-- Whether an email is already present in the collection. -/
def emailExists (s : UserStore) (email : String) : Bool :=
  (findByEmail s email).isSome

/-- `InsertOne` (main.go:174) under the unique index on `email` created by
`createIndexes` (main.go:106): the insert fails exactly when the email is
already present, and otherwise stores the document under a store-assigned
fresh id, returned as `InsertedID`. -/
def insertUser (s : UserStore) (u : User) : Option (UserStore × String) :=
  if emailExists s u.email then
    none
  else
    let newId := "oid" ++ toString s.nextId
    some ({ users := s.users ++ [{ u with id := newId }],
            nextId := s.nextId + 1 },
          newId)

/-- Response bodies the service produces (each a concrete `gin.H` or
struct in the source). -/
inductive RespBody where
  | errBody (msg : String)
  | msgBody (msg : String)
  | registered (msg : String) (user_id : String)
  | tokenBody (t : TokenResponse)
  | userBody (fields : List (String × JsonVal))
deriving DecidableEq, Repr

/-- An HTTP response: status code and body. -/
structure HttpResponse where
  status : Nat
  body : RespBody
deriving DecidableEq, Repr

/-- Outcome of running a handler: a response, or a Go runtime panic. -/
inductive HResult where
  | resp (r : HttpResponse)
  | panicked (msg : String)
deriving DecidableEq, Repr

/-- A simplified stand-in for the `email` rule of gin's binding validator:
non-empty and containing an at sign.  No claim depends on the exact
accepted language, only on concrete addresses such as `a@x.com` being
valid. -/
def validEmail (s : String) : Bool :=
  !s.data.isEmpty && s.data.contains '@'

/-- The register request binding (main.go:146): required valid email,
password of at least 8 characters, required name. -/
structure RegisterReq where
  email : String
  password : String
  name : String
deriving DecidableEq, Repr

/-- `ShouldBindJSON` success condition for the register request. -/
def validRegisterReq (r : RegisterReq) : Bool :=
  validEmail r.email && decide (8 ≤ r.password.length) && !r.name.data.isEmpty

/-- `LoginRequest` (main.go:29): required valid email, password of at
least 6 characters. -/
structure LoginRequest where
  email : String
  password : String
deriving DecidableEq, Repr

/-- `ShouldBindJSON` success condition for the login request. -/
def validLoginReq (r : LoginRequest) : Bool :=
  validEmail r.email && decide (6 ≤ r.password.length)

/-- `register` (main.go:145).  `none` stands for a request body that is
not JSON at all; binding failures of either kind answer 400.  The salt
for this request's bcrypt call is supplied by the environment. -/
def register (s : UserStore) (cost salt : Nat) (now : Int)
    (req : Option RegisterReq) : UserStore × HttpResponse :=
  match req with
  | none => (s, ⟨400, .errBody "binding error"⟩)
  | some r =>
    if validRegisterReq r then
      let hashed := bcryptGenerateFromPassword cost salt r.password
      let user : User :=
        { id := "", email := r.email, password := hashed, role := "customer",
          name := r.name, active := true, created_at := now }
      match insertUser s user with
      | none => (s, ⟨409, .errBody "Email already exists"⟩)
      | some (s2, newId) =>
        (s2, ⟨201, .registered "User registered successfully" newId⟩)
    else
      (s, ⟨400, .errBody "binding error"⟩)

/-- `login` (main.go:186): look the account up by email, check the
password, and on success issue a token pair; both failure causes answer
401 with the same body. -/
def login (s : UserStore) (secret : String) (now : Int)
    (req : Option LoginRequest) : HttpResponse :=
  match req with
  | none => ⟨400, .errBody "binding error"⟩
  | some r =>
    if validLoginReq r then
      match findByEmail s r.email with
      | none => ⟨401, .errBody "Invalid credentials"⟩
      | some u =>
        if bcryptCompareHashAndPassword u.password r.password then
          ⟨200, .tokenBody (generateTokens secret now u.id u.email u.role)⟩
        else
          ⟨401, .errBody "Invalid credentials"⟩
    else
      ⟨400, .errBody "binding error"⟩

/-- `refreshToken` (main.go:218): bind the body, verify the presented
token, then read `sub`, `email`, `role` with unchecked Go type assertions
(`claims["sub"].(string)` and friends) — a missing or non-string claim is
a runtime panic — and issue a fresh pair. -/
def refreshToken (secret : String) (now : Int) (req : Option JWTInput) :
    HResult :=
  match req with
  | none => .resp ⟨400, .errBody "binding error"⟩
  | some input =>
    match jwtParse secret now input with
    | .error _ => .resp ⟨401, .errBody "Invalid refresh token"⟩
    | .ok t =>
      match lookupStr t.claims "sub", lookupStr t.claims "email",
            lookupStr t.claims "role" with
      | some userID, some email, some role =>
        .resp ⟨200, .tokenBody (generateTokens secret now userID email role)⟩
      | _, _, _ => .panicked "interface conversion"

/-- JSON serialization of `User` under its struct tags: fields in
declaration order, with `password` omitted by its `-` tag. -/
def serializeUser (u : User) : List (String × JsonVal) :=
  [("id", .str u.id), ("email", .str u.email), ("role", .str u.role),
   ("name", .str u.name), ("active", .jbool u.active),
   ("created_at", .num u.created_at)]

/-- `getProfile` (main.go:257): look the account up by the id the Auth
Gate stored in the request context; 404 when absent, otherwise the
serialized user. -/
def getProfile (s : UserStore) (userID : String) : HttpResponse :=
  match findById s userID with
  | none => ⟨404, .errBody "User not found"⟩
  | some u => ⟨200, .userBody (serializeUser u)⟩

/-- `UpdateOne({_id: id}, {$set: {name}})` (main.go:284): updates the
matching documents' name; matching nothing is not an error. -/
def updateOneSetName (s : UserStore) (userID name : String) : UserStore :=
  { s with
    users := s.users.map
      (fun u => if u.id == userID then { u with name := name } else u) }

/-- `updateProfile` (main.go:271): bind the body (`none` stands for a
non-JSON body), run the update, and answer 200 unconditionally — the
source never inspects whether any document matched. -/
def updateProfile (s : UserStore) (userID : String) (req : Option String) :
    UserStore × HttpResponse :=
  match req with
  | none => (s, ⟨400, .errBody "binding error"⟩)
  | some name =>
    (updateOneSetName s userID name,
     ⟨200, .msgBody "Profile updated successfully"⟩)

/-- Outcome of the Auth Gate: an aborted response, passing control to the
next handler with the context values it set, or a Go runtime panic. -/
inductive MWResult where
  | abort (r : HttpResponse)
  | next (sub email role : Option JsonVal)
  | panicked (msg : String)
deriving DecidableEq, Repr

/-- `authMiddleware` (main.go:325): empty header answers 401; otherwise
the source slices `authHeader[7:]`, which in Go panics when the header is
shorter than 7 bytes; the remainder is parsed and verified, a failure
aborts with 401, and success stores the raw `sub`, `email`, `role` claim
values in the request context.  `decode` is the structural JWT decoding
of the remainder string. -/
def authMiddleware (secret : String) (now : Int)
    (decode : String → JWTInput) (authHeader : String) : MWResult :=
  if authHeader == "" then
    .abort ⟨401, .errBody "Missing authorization header"⟩
  else if authHeader.length < 7 then
    .panicked "slice bounds out of range"
  else
    let tokenString := authHeader.drop 7
    match jwtParse secret now (decode tokenString) with
    | .error _ => .abort ⟨401, .errBody "Invalid token"⟩
    | .ok t =>
      .next (lookupClaim t.claims "sub") (lookupClaim t.claims "email")
        (lookupClaim t.claims "role")

/-! ## Claims -/

/-- C1: the claim says verification pins a single expected signing
algorithm and rejects a token declaring any other.  The source calls
`jwt.Parse` with no `WithValidMethods` restriction, so the header chooses
the method: a refresh token declaring HS384, MAC-computed with the very
process secret, is accepted and answered with a fresh token pair — the
verifier does not pin HS256.  (Tokens declaring `none` are rejected, but
only because the byte-slice key fails the `none` method's key check.) -/
theorem C1_hs384_token_accepted :
    (let cs : Claims :=
      [("sub", .str "u1"), ("email", .str "a@x.com"),
       ("role", .str "customer"), ("exp", .num 1000), ("iat", .num 0)];
     refreshToken "s3cret" 500
       (some (.wellFormed ⟨.HS384, cs, some (.hmac .HS384 "s3cret" cs)⟩)))
    = .resp ⟨200, .tokenBody (generateTokens "s3cret" 500 "u1" "a@x.com" "customer")⟩ := by
  rfl

/-- C2: login with a wrong password for an existing account and login
with a non-existent email produce the identical response — 401 with the
one body `Invalid credentials` — so the two failure causes are
indistinguishable. -/
theorem C2_login_failures_indistinguishable (s : UserStore) (secret : String)
    (now : Int) (r1 r2 : LoginRequest) (u : User)
    (hv1 : validLoginReq r1 = true) (hv2 : validLoginReq r2 = true)
    (h1 : findByEmail s r1.email = some u)
    (hpw : bcryptCompareHashAndPassword u.password r1.password = false)
    (h2 : findByEmail s r2.email = none) :
    login s secret now (some r1) = login s secret now (some r2) ∧
    login s secret now (some r1) = ⟨401, .errBody "Invalid credentials"⟩ := by
  simp [login, hv1, hv2, h1, h2, hpw]

/-- Ann's account: the registered account of the spec's concrete
scenarios, used as a concrete store element by the witnesses. -/
def annUser : User :=
  { id := "oid0", email := "a@x.com",
    password := { cost := 10, salt := 5, plaintext := "secret123" },
    role := "customer", name := "Ann", active := true, created_at := 0 }

/-- A concrete store holding only Ann's account. -/
def annStore : UserStore := { users := [annUser], nextId := 1 }

/-- C2 witness: on the concrete one-user store, a wrong-password attempt
and an attempt with an unknown email give the same 401 response. -/
theorem C2_login_failures_indistinguishable_witness :
    login annStore "k" 7 (some ⟨"a@x.com", "wrongpass"⟩)
      = login annStore "k" 7 (some ⟨"nouser@x.com", "whatever"⟩) ∧
    login annStore "k" 7 (some ⟨"a@x.com", "wrongpass"⟩)
      = ⟨401, .errBody "Invalid credentials"⟩ :=
  C2_login_failures_indistinguishable annStore "k" 7
    ⟨"a@x.com", "wrongpass"⟩ ⟨"nouser@x.com", "whatever"⟩ annUser
    (by decide) (by decide) (by decide) (by decide) (by decide)

/-- C3: the claim says a token passing signature and expiry checks but
lacking a string-valued `sub` yields the InvalidToken error and the
handler never crashes.  The source reads `claims["sub"].(string)` with an
unchecked type assertion: on a validly signed, unexpired token with no
`sub` claim the handler panics instead of answering 400/401. -/
theorem C3_missing_sub_claim_panics :
    (let cs : Claims :=
      [("email", .str "a@x.com"), ("role", .str "customer"),
       ("exp", .num 1000), ("iat", .num 0)];
     refreshToken "s3cret" 500
       (some (.wellFormed ⟨.HS256, cs, some (.hmac .HS256 "s3cret" cs)⟩)))
    = .panicked "interface conversion" := by
  rfl

/-- C4: verification accepts a token exactly when the current time is
strictly below its `exp` claim; at `now = exp` and beyond it fails with
the expiry error. -/
theorem C4_exp_boundary_strict (secret : String) (now : Int)
    (t : SignedToken) (e : Int)
    (hsig : verifySignature secret t = true)
    (hexp : lookupClaim t.claims "exp" = some (.num e)) :
    (jwtParse secret now (.wellFormed t) = .ok t ↔ now < e) ∧
    (e ≤ now → jwtParse secret now (.wellFormed t) = .error .expired) := by
  constructor
  · constructor
    · intro h
      by_contra hlt
      simp [jwtParse, hsig, validateExp, hexp, if_neg hlt] at h
    · intro hlt
      simp [jwtParse, hsig, validateExp, hexp, if_pos hlt]
  · intro hle
    have hlt : ¬ now < e := not_lt.mpr hle
    simp [jwtParse, hsig, validateExp, hexp, if_neg hlt]

/-- C4 witness: a concrete HS256 token with `exp = 1000` is accepted at
time 999 and rejected as expired at exactly time 1000. -/
theorem C4_exp_boundary_strict_witness :
    (let cs : Claims := [("sub", .str "u1"), ("exp", .num 1000)];
     let t : SignedToken := ⟨.HS256, cs, some (.hmac .HS256 "k" cs)⟩;
     jwtParse "k" 999 (.wellFormed t) = .ok t ∧
     jwtParse "k" 1000 (.wellFormed t) = .error .expired) := by
  refine ⟨((C4_exp_boundary_strict "k" 999 _ 1000 (by decide)
      (by decide)).1).mpr (by decide),
    (C4_exp_boundary_strict "k" 1000 _ 1000 (by decide)
      (by decide)).2 (by decide)⟩

/-- C5: the claim says `updateProfile` with an unresolvable account id
fails with 404.  The source runs `UpdateOne` and ignores the matched
count: on the empty store, updating account `u1` answers 200 with the
success message and no document is touched — 404 is never produced. -/
theorem C5_update_missing_account_answers_200 :
    updateProfile ⟨[], 0⟩ "u1" (some "NewName")
      = (⟨[], 0⟩, ⟨200, .msgBody "Profile updated successfully"⟩) := by
  rfl

/-- C6: registering a duplicate email answers 409 and leaves the store
untouched; registering a fresh valid email answers 201 and appends
exactly one account — the hashed password, customer role, active flag and
creation time of the request. -/
theorem C6_email_uniqueness_invariant (s : UserStore) (cost salt : Nat)
    (now : Int) (r : RegisterReq) (hv : validRegisterReq r = true) :
    (emailExists s r.email = true →
       register s cost salt now (some r)
         = (s, ⟨409, .errBody "Email already exists"⟩)) ∧
    (emailExists s r.email = false →
       register s cost salt now (some r)
         = ({ users := s.users ++
                [{ id := "oid" ++ toString s.nextId, email := r.email,
                   password := bcryptGenerateFromPassword cost salt r.password,
                   role := "customer", name := r.name, active := true,
                   created_at := now }],
              nextId := s.nextId + 1 },
            ⟨201, .registered "User registered successfully"
              ("oid" ++ toString s.nextId)⟩)) := by
  constructor
  · intro hdup
    simp [register, hv, insertUser, hdup]
  · intro hfresh
    simp [register, hv, insertUser, hfresh]

/-- C6 witness: the spec's concrete scenario 1 — registering Ann on the
empty store answers 201 and stores her account; registering Bob with the
same email then answers 409 and leaves the store as it was. -/
theorem C6_email_uniqueness_invariant_witness :
    register ⟨[], 0⟩ 10 5 0 (some ⟨"a@x.com", "secret123", "Ann"⟩)
      = (annStore,
         ⟨201, .registered "User registered successfully" "oid0"⟩) ∧
    register annStore 10 5 0 (some ⟨"a@x.com", "other1234", "Bob"⟩)
      = (annStore, ⟨409, .errBody "Email already exists"⟩) := by
  constructor
  · have h := (C6_email_uniqueness_invariant ⟨[], 0⟩ 10 5 0
      ⟨"a@x.com", "secret123", "Ann"⟩ (by decide)).2 (by decide)
    simpa [annStore, annUser, bcryptGenerateFromPassword] using h
  · exact (C6_email_uniqueness_invariant annStore 10 5 0
      ⟨"a@x.com", "other1234", "Bob"⟩ (by decide)).1 (by decide)

/-- C7: verifying an access token produced by `generateTokens` before its
expiry succeeds and returns the claims unmodified — sub, email and role
as issued, with `exp - iat` equal to 15 minutes. -/
theorem C7_issue_verify_roundtrip (secret : String) (now verifyTime : Int)
    (id email role : String) (h : verifyTime < now + 15 * 60) :
    jwtParse secret verifyTime
        (.wellFormed (generateTokens secret now id email role).access_token)
      = .ok (generateTokens secret now id email role).access_token ∧
    lookupClaim (generateTokens secret now id email role).access_token.claims
        "sub" = some (.str id) ∧
    lookupClaim (generateTokens secret now id email role).access_token.claims
        "email" = some (.str email) ∧
    lookupClaim (generateTokens secret now id email role).access_token.claims
        "role" = some (.str role) ∧
    lookupClaim (generateTokens secret now id email role).access_token.claims
        "exp" = some (.num (now + 15 * 60)) ∧
    lookupClaim (generateTokens secret now id email role).access_token.claims
        "iat" = some (.num now) ∧
    (now + 15 * 60) - now = 15 * 60 := by
  refine ⟨?_, rfl, rfl, rfl, rfl, rfl, by omega⟩
  have h9 : verifyTime < now + 900 := by omega
  simp [generateTokens, jwtParse, verifySignature, validateExp, lookupClaim,
    List.find?, h9]

/-- C7 witness: the concrete round trip at issuance time 0, verified at
time 0, for Ann's identity. -/
theorem C7_issue_verify_roundtrip_witness :
    jwtParse "k" 0
        (.wellFormed (generateTokens "k" 0 "oid0" "a@x.com" "customer").access_token)
      = .ok (generateTokens "k" 0 "oid0" "a@x.com" "customer").access_token ∧
    lookupClaim (generateTokens "k" 0 "oid0" "a@x.com" "customer").access_token.claims
        "sub" = some (.str "oid0") ∧
    lookupClaim (generateTokens "k" 0 "oid0" "a@x.com" "customer").access_token.claims
        "email" = some (.str "a@x.com") ∧
    lookupClaim (generateTokens "k" 0 "oid0" "a@x.com" "customer").access_token.claims
        "role" = some (.str "customer") ∧
    lookupClaim (generateTokens "k" 0 "oid0" "a@x.com" "customer").access_token.claims
        "exp" = some (.num (0 + 15 * 60)) ∧
    lookupClaim (generateTokens "k" 0 "oid0" "a@x.com" "customer").access_token.claims
        "iat" = some (.num 0) ∧
    (0 + 15 * 60 : Int) - 0 = 15 * 60 :=
  C7_issue_verify_roundtrip "k" 0 0 "oid0" "a@x.com" "customer" (by decide)

/-- C8: when the account resolves, `getProfile` answers 200 with the
serialized user; the serialization carries exactly the six profile keys
(id, email, role, name, active, created_at) and is independent of the
stored credential hash — the `password` field never reaches a
response. -/
theorem C8_profile_excludes_credential_hash (s : UserStore) (uid : String)
    (u : User) (h : findById s uid = some u) :
    getProfile s uid = ⟨200, .userBody (serializeUser u)⟩ ∧
    (serializeUser u).map Prod.fst
      = ["id", "email", "role", "name", "active", "created_at"] ∧
    (∀ h2 : BHash, serializeUser { u with password := h2 }
      = serializeUser u) := by
  exact ⟨by simp [getProfile, h], rfl, fun h2 => rfl⟩

/-- C8 witness: Ann's profile on the concrete store. -/
theorem C8_profile_excludes_credential_hash_witness :
    getProfile annStore "oid0" = ⟨200, .userBody (serializeUser annUser)⟩ ∧
    (serializeUser annUser).map Prod.fst
      = ["id", "email", "role", "name", "active", "created_at"] ∧
    (∀ h2 : BHash, serializeUser { annUser with password := h2 }
      = serializeUser annUser) :=
  C8_profile_excludes_credential_hash annStore "oid0" annUser (by decide)

/-- C9: registering a fresh valid email and then logging in with the same
credentials succeeds, and the issued access token's `sub` claim is
exactly the id the store assigned at registration. -/
theorem C9_register_then_login (s : UserStore) (cost salt : Nat)
    (now now2 : Int) (secret : String) (r : RegisterReq)
    (hv : validRegisterReq r = true)
    (hfresh : emailExists s r.email = false) :
    ∃ newId s2,
      register s cost salt now (some r)
        = (s2, ⟨201, .registered "User registered successfully" newId⟩) ∧
      login s2 secret now2 (some ⟨r.email, r.password⟩)
        = ⟨200, .tokenBody
            (generateTokens secret now2 newId r.email "customer")⟩ ∧
      lookupStr (generateTokens secret now2 newId r.email
          "customer").access_token.claims "sub" = some newId := by
  refine ⟨"oid" ++ toString s.nextId,
    { users := s.users ++
        [{ id := "oid" ++ toString s.nextId, email := r.email,
           password := bcryptGenerateFromPassword cost salt r.password,
           role := "customer", name := r.name, active := true,
           created_at := now }],
      nextId := s.nextId + 1 }, ?_, ?_, rfl⟩
  · simp [register, hv, insertUser, hfresh]
  · have hv2 := hv
    simp only [validRegisterReq, Bool.and_eq_true, decide_eq_true_eq] at hv2
    have hlogin : validLoginReq ⟨r.email, r.password⟩ = true := by
      simp only [validLoginReq, Bool.and_eq_true, decide_eq_true_eq]
      exact ⟨hv2.1.1, by omega⟩
    have hnone : s.users.find? (fun u => u.email == r.email) = none := by
      unfold emailExists findByEmail at hfresh
      cases ho : s.users.find? (fun u => u.email == r.email) with
      | none => rfl
      | some u => rw [ho] at hfresh; simp at hfresh
    simp [login, hlogin, findByEmail, List.find?_append, hnone,
      bcryptCompareHashAndPassword, bcryptGenerateFromPassword]

/-- C9 witness: registering Ann on the empty store and logging in with her
credentials yields a token pair whose access token's `sub` is her assigned
id. -/
theorem C9_register_then_login_witness :
    ∃ newId s2,
      register ⟨[], 0⟩ 10 5 0 (some ⟨"a@x.com", "secret123", "Ann"⟩)
        = (s2, ⟨201, .registered "User registered successfully" newId⟩) ∧
      login s2 "k" 7 (some ⟨"a@x.com", "secret123"⟩)
        = ⟨200, .tokenBody
            (generateTokens "k" 7 newId "a@x.com" "customer")⟩ ∧
      lookupStr (generateTokens "k" 7 newId "a@x.com"
          "customer").access_token.claims "sub" = some newId :=
  C9_register_then_login ⟨[], 0⟩ 10 5 0 7 "k"
    ⟨"a@x.com", "secret123", "Ann"⟩ (by decide) (by decide)

/-- C10: the claim says the Auth Gate never crashes, for a non-empty
Authorization header of any length.  The source slices `authHeader[7:]`
unconditionally after the emptiness check, and a Go string slice past the
end panics: the concrete 5-byte header `Basic` makes the middleware panic
instead of answering 401. -/
theorem C10_short_header_panics :
    authMiddleware "s3cret" 0 (fun _ => JWTInput.malformed) "Basic"
      = .panicked "slice bounds out of range" := by
  rfl

/-- C10 amended: for a request whose Authorization header is empty or at
least 7 bytes long, the middleware is total — it either aborts with a 401
response or attaches the claims and passes control on; only non-empty
headers shorter than 7 bytes reach the panicking slice. -/
theorem C10_no_crash_on_long_or_empty_headers (secret : String) (now : Int)
    (decode : String → JWTInput) (hdr : String)
    (h : hdr = "" ∨ 7 ≤ hdr.length) :
    (∃ msg, authMiddleware secret now decode hdr
        = .abort ⟨401, .errBody msg⟩) ∨
    (∃ a b c, authMiddleware secret now decode hdr = .next a b c) := by
  rcases h with h | h
  · subst h
    exact Or.inl ⟨"Missing authorization header", rfl⟩
  · have hdrne : hdr ≠ "" := fun he => absurd (he ▸ h) (by decide)
    have hne : (hdr == "") = false := beq_eq_false_iff_ne.mpr hdrne
    have hlt : ¬ hdr.length < 7 := by omega
    rcases hp : jwtParse secret now (decode (hdr.drop 7)) with e | t
    · exact Or.inl ⟨"Invalid token", by simp [authMiddleware, hne, hlt, hp]⟩
    · exact Or.inr ⟨lookupClaim t.claims "sub", lookupClaim t.claims "email",
        lookupClaim t.claims "role", by simp [authMiddleware, hne, hlt, hp]⟩

/-- C10 amended witness: the 8-byte header `Bearer x`, whose remainder
does not parse as a JWT, is aborted with 401 rather than crashing. -/
theorem C10_no_crash_on_long_or_empty_headers_witness :
    (∃ msg, authMiddleware "k" 0 (fun _ => JWTInput.malformed) "Bearer x"
        = .abort ⟨401, .errBody msg⟩) ∨
    (∃ a b c, authMiddleware "k" 0 (fun _ => JWTInput.malformed) "Bearer x"
        = .next a b c) :=
  C10_no_crash_on_long_or_empty_headers "k" 0 (fun _ => JWTInput.malformed)
    "Bearer x" (Or.inr (by decide))

end ECommerceAuth
